import Mathlib

/-!
Shallow embedding of the QWED-MCP dispatch gateway
(source file: src/qwed_mcp/tools.py).

The gateway receives a (tool name, argument map) request, routes it through
a chain of name comparisons to one of twelve tool handlers, invokes the
corresponding backend guard when it is available, and renders the result
through format_result, optionally appending an attestation block.

Modelling conventions:
- Python dict argument maps become association lists over dynamically
  typed values (PyVal); dict lookup of a missing key is a KeyError, whose
  str() rendering is the quoted key.
- Backends (verification engines and guards) are black boxes imported at
  process start; they are modelled as functions stored in an Env record,
  wrapped in Option when the import can fail.  A backend that raises is a
  function returning Except.error with the str() of the exception.
- The outer try/except of call_tool becomes the Except layer of
  call_tool_except; the final except handler is the wrapper call_tool.
- Backend invocations are logged in the second component of the result so
  that the backend is never invoked claims are statements about the log.
- json.loads is an external deterministic function; its output is passed
  opaquely to the guard, so it is modelled as an Env function on PyVal.
-/

/-- A dynamically typed value appearing in an MCP argument map.  Every
array declared by the tool schemas is an array of strings, so list values
carry string elements. -/
inductive PyVal where
  | str (s : String)
  | num (n : Int)
  | list (l : List String)
  deriving DecidableEq

/-- Whether needle occurs as a contiguous sublist of the second list. -/
def listInfixOf (needle : List Char) : List Char → Bool
  | [] => needle.isEmpty
  | c :: t => needle.isPrefixOf (c :: t) || listInfixOf needle t

/-- Python substring test: the operator needle in hay on two strings. -/
def strContains (hay needle : String) : Bool :=
  listInfixOf needle.toList hay.toList

/-- Whether the string s starts with the string p (executable form). -/
def strStarts (s p : String) : Bool :=
  p.toList.isPrefixOf s.toList

/-- Python membership test x in v as used by the banking handler:
substring search on strings, element membership on lists, a TypeError on
numbers (rendered as its str()). -/
def pyContains (needle : String) : PyVal → Except String Bool
  | .str s => .ok (strContains s needle)
  | .list l => .ok (l.contains needle)
  | .num _ => .error "argument of type \u0027int\u0027 is not iterable"

/-- Python str() of a value, as interpolated by f-strings. -/
def pyStr : PyVal → String
  | .str s => s
  | .num n => toString n
  | .list l =>
      "[" ++ String.intercalate ", " (l.map (fun s => "\u0027" ++ s ++ "\u0027")) ++ "]"

/-- str() of a KeyError for key k: the repr of the key, in quotes. -/
def keyErr (k : String) : String :=
  "\u0027" ++ k ++ "\u0027"

/-- Python x or default for an optional string field: the field when it is
present and non-empty (truthy), otherwise the default. -/
def pyOrD : Option String → String → String
  | some a, d => if a = "" then d else a
  | none, d => d

/-- A raw backend result dict.  Fields are optional because backends
disagree on which keys they populate (verified vs valid, message
vs error, and the diagnostic collections). -/
structure RawResult where
  verified : Option Bool := none
  valid : Option Bool := none
  message : Option String := none
  error : Option String := none
  issues : Option (List String) := none
  conflicts : Option (List String) := none
  violations : Option (List String) := none
  normalized : Option String := none
  deriving DecidableEq

/-- The verified flag as computed by format_result, source line 378:
result.get("verified") or result.get("valid"), with an absent field
behaving as a falsy None. -/
def impl_verified (r : RawResult) : Bool :=
  r.verified.getD false || r.valid.getD false

/-- Modelled from the spec: the normalization rule of section 4.4, in
priority order — verified equals raw.verified if present, else raw.valid
if present, else false.  Stated here only for comparison with
impl_verified, which is translated from the source. -/
def spec_verified (r : RawResult) : Bool :=
  match r.verified with
  | some b => b
  | none => r.valid.getD false

/-- The message line content, source line 385: message or error or a
fixed placeholder, under Python string truthiness. -/
def pyMessage (r : RawResult) : String :=
  pyOrD r.message (pyOrD r.error "No details")

/-- Python repr of a list of strings, as interpolated into the
diagnostic lines of format_result. -/
def pyListRepr (l : List String) : String :=
  "[" ++ String.intercalate ", " (l.map (fun s => "\u0027" ++ s ++ "\u0027")) ++ "]"

/-- One optional diagnostic line of format_result: printed only when the
collection is present and non-empty. -/
def diagLine (label : String) : Option (List String) → String
  | some l => if l = [] then "" else label ++ ": " ++ pyListRepr l ++ "\n"
  | none => ""

/-- The status line for a verified result (exact source bytes). -/
def okStatus : String := "âœ… VERIFIED"

/-- The status line for a failed result (exact source bytes). -/
def failStatus : String := "âŒ FAILED"

/-- The heading of the attestation block (exact source bytes). -/
def attHeader : String := "ðŸ” **QWED Attestation:**"

/-- Python str() of an optional boolean, as interpolated into the
signed summary by an f-string. -/
def pyOptBoolStr : Option Bool → String
  | none => "None"
  | some true => "True"
  | some false => "False"

/-- The summary string signed by the attestation guard, source line 372:
tool identifier and the raw verified field of the result dict. -/
def input_summary (signature_tool : String) (result : RawResult) : String :=
  "tool:" ++ signature_tool ++ ",result:" ++ pyOptBoolStr result.verified

/-- An attestation signer: receives the summary string and the raw result
dict and either produces a token or raises. -/
abbrev Signer := String → RawResult → Except String String

/-- The attestation block appended by format_result: empty when the
signer is absent, the token block on success, an inline note when the
signer raises (source lines 368-376). -/
def signature_block (att : Option Signer) (signature_tool : String) (result : RawResult) : String :=
  match att with
  | none => ""
  | some signer =>
      match signer (input_summary signature_tool result) result with
      | .ok token => "\n\n" ++ attHeader ++ "\n\u0060" ++ token ++ "\u0060"
      | .error e => "\n\n(Signing failed: " ++ e ++ ")"

/-- The body of the rendered response: status line, message line, and the
optional diagnostic lines (source lines 378-393). -/
def format_body (result : RawResult) : String :=
  (if impl_verified result then okStatus else failStatus) ++ "\n"
    ++ "Result: " ++ pyMessage result ++ "\n"
    ++ diagLine "Issues" result.issues
    ++ diagLine "Conflicts" result.conflicts
    ++ diagLine "Violations" result.violations

/-- format_result, source lines 364-395: render the result and append the
attestation block. -/
def format_result (att : Option Signer) (result : RawResult) (signature_tool : String) : String :=
  format_body result ++ signature_block att signature_tool result

/-- An argument map: string keys to dynamically typed values. -/
abbrev Args := List (String × PyVal)

/-- The process environment built at import time: the two always-present
engines, the optional guards (None when their import failed), the json
parser and the optional attestation signer.  finance_guard carries only
its availability because the dispatcher never calls a method on it. -/
structure Env where
  math_engine : PyVal → PyVal → PyVal → Except String RawResult
  logic_engine : PyVal → PyVal → Except String RawResult
  code_guard : Option (PyVal → Except String RawResult)
  sql_guard : Option (PyVal → Except String RawResult)
  finance_guard : Bool
  iso_guard : Option (PyVal → PyVal → Except String RawResult)
  commerce_guard : Option (PyVal → Except String (Bool × Option String))
  deadline_guard : Option (PyVal → PyVal → PyVal → Except String (Bool × String))
  citation_guard : Option (PyVal → Except String (Bool × List String))
  liability_guard : Option (PyVal → PyVal → PyVal → Except String (Bool × String))
  jurisdiction_guard : Option (PyVal → PyVal → Option PyVal → Except String (Bool × String × List String))
  statute_guard : Option (PyVal → PyVal → PyVal → PyVal → Except String (Bool × String))
  json_loads : PyVal → Except String PyVal
  attestation_guard : Option Signer

/-- The verify_math branch, source lines 239-244. -/
def dispatch_math (env : Env) (args : Args) : Except String String × List String :=
  match args.lookup "expression" with
  | none => (.error (keyErr "expression"), [])
  | some expr =>
    match args.lookup "claimed_result" with
    | none => (.error (keyErr "claimed_result"), [])
    | some claimed =>
      match env.math_engine expr claimed ((args.lookup "operation").getD (PyVal.str "evaluate")) with
      | .error e => (.error e, ["math_engine"])
      | .ok r => (.ok (format_result env.attestation_guard r "verify_math"), ["math_engine"])

/-- The verify_logic branch, source lines 245-249. -/
def dispatch_logic (env : Env) (args : Args) : Except String String × List String :=
  match args.lookup "premises" with
  | none => (.error (keyErr "premises"), [])
  | some prem =>
    match args.lookup "conclusion" with
    | none => (.error (keyErr "conclusion"), [])
    | some concl =>
      match env.logic_engine prem concl with
      | .error e => (.error e, ["logic_engine"])
      | .ok r => (.ok (format_result env.attestation_guard r "verify_logic"), ["logic_engine"])

/-- The verify_code branch, source lines 250-259.  Note that the declared
required field language is never read, and that the handler re-reads
guard_res["verified"], which is itself a KeyError when absent. -/
def dispatch_code (env : Env) (args : Args) : Except String String × List String :=
  match env.code_guard with
  | none =>
      (.ok (format_result env.attestation_guard
        { verified := some false, error := some "CodeGuard not installed" } "verify_code"), [])
  | some guard_fn =>
    match args.lookup "code" with
    | none => (.error (keyErr "code"), [])
    | some code =>
      match guard_fn code with
      | .error e => (.error e, ["code_guard"])
      | .ok gr =>
        match gr.verified with
        | none => (.error (keyErr "verified"), ["code_guard"])
        | some v =>
            (.ok (format_result env.attestation_guard
              { verified := some v,
                message := some (pyOrD gr.message "Code verified safe."),
                violations := gr.violations } "verify_code"), ["code_guard"])

/-- The verify_sql branch, source lines 261-270.  Only the query field is
read; allowed_tables is never consulted. -/
def dispatch_sql (env : Env) (args : Args) : Except String String × List String :=
  match env.sql_guard with
  | none =>
      (.ok (format_result env.attestation_guard
        { verified := some false, error := some "SQLGuard not installed" } "verify_sql"), [])
  | some guard_fn =>
    match args.lookup "query" with
    | none => (.error (keyErr "query"), [])
    | some q =>
      match guard_fn q with
      | .error e => (.error e, ["sql_guard"])
      | .ok gr =>
        match gr.verified with
        | none => (.error (keyErr "verified"), ["sql_guard"])
        | some v =>
            (.ok (format_result env.attestation_guard
              { verified := some v,
                message := some (pyOrD gr.message "SQL verified safe."),
                normalized := gr.normalized } "verify_sql"), ["sql_guard"])

/-- The raw result produced by the in-gateway logic trap heuristic. -/
def trapResult : RawResult :=
  { verified := some false, message := some "Logic Trap Detected: Senior Citizen Premium" }

/-- The raw result produced by the banking handler when the trap does not
fire: the llm output echoed back as verified. -/
def bankingOk (out : String) : RawResult :=
  { verified := some true, message := some ("Verified: " ++ out) }

/-- The verify_banking_compliance branch, source lines 273-281: when the
finance guard is present, a purely in-gateway keyword heuristic; the
guard itself is never invoked. -/
def dispatch_banking (env : Env) (args : Args) : Except String String × List String :=
  if env.finance_guard = false then
    (.ok (format_result env.attestation_guard
      { error := some "qwed-finance missing" } "verify_banking_compliance"), [])
  else
    match args.lookup "scenario" with
    | none => (.error (keyErr "scenario"), [])
    | some scenario =>
      match args.lookup "llm_output" with
      | none => (.error (keyErr "llm_output"), [])
      | some output_val =>
        match pyContains "Senior Citizen" scenario with
        | .error e => (.error e, [])
        | .ok b1 =>
          if b1 then
            match pyContains "0.5" output_val with
            | .error e => (.error e, [])
            | .ok b2 =>
              if b2 then
                (.ok (format_result env.attestation_guard trapResult "verify_banking_compliance"), [])
              else
                (.ok (format_result env.attestation_guard
                  (bankingOk (pyStr output_val)) "verify_banking_compliance"), [])
          else
            (.ok (format_result env.attestation_guard
              (bankingOk (pyStr output_val)) "verify_banking_compliance"), [])

/-- The verify_iso_20022 branch, source lines 283-291.  Argument access
and json parsing happen inside the inner try, so their faults become a
formatted failed result rather than reaching the outer handler. -/
def dispatch_iso (env : Env) (args : Args) : Except String String × List String :=
  match env.iso_guard with
  | none =>
      (.ok (format_result env.attestation_guard
        { error := some "qwed-finance missing" } "verify_iso_20022"), [])
  | some iso_fn =>
    match args.lookup "message_json" with
    | none =>
        (.ok (format_result env.attestation_guard
          { verified := some false, error := some (keyErr "message_json") } "verify_iso_20022"), [])
    | some mj =>
      match env.json_loads mj with
      | .error e =>
          (.ok (format_result env.attestation_guard
            { verified := some false, error := some e } "verify_iso_20022"), [])
      | .ok msg =>
        match args.lookup "msg_type" with
        | none =>
            (.ok (format_result env.attestation_guard
              { verified := some false, error := some (keyErr "msg_type") } "verify_iso_20022"), [])
        | some mt =>
          match iso_fn msg mt with
          | .error e =>
              (.ok (format_result env.attestation_guard
                { verified := some false, error := some e } "verify_iso_20022"), ["iso_guard"])
          | .ok r =>
              (.ok (format_result env.attestation_guard r "verify_iso_20022"), ["iso_guard"])

/-- The verify_commerce_transaction branch, source lines 294-303. -/
def dispatch_commerce (env : Env) (args : Args) : Except String String × List String :=
  match env.commerce_guard with
  | none =>
      (.ok (format_result env.attestation_guard
        { error := some "qwed-ucp missing" } "verify_commerce_transaction"), [])
  | some com_fn =>
    match args.lookup "cart_json" with
    | none =>
        (.ok (format_result env.attestation_guard
          { verified := some false, error := some (keyErr "cart_json") } "verify_commerce_transaction"), [])
    | some cj =>
      match env.json_loads cj with
      | .error e =>
          (.ok (format_result env.attestation_guard
            { verified := some false, error := some e } "verify_commerce_transaction"), [])
      | .ok cart =>
        match com_fn cart with
        | .error e =>
            (.ok (format_result env.attestation_guard
              { verified := some false, error := some e } "verify_commerce_transaction"), ["commerce_guard"])
        | .ok (b, errOpt) =>
            (.ok (format_result env.attestation_guard
              { verified := some b, message := some (pyOrD errOpt "Approved") }
              "verify_commerce_transaction"), ["commerce_guard"])

/-- The verify_legal_deadline branch, source lines 306-310. -/
def dispatch_deadline (env : Env) (args : Args) : Except String String × List String :=
  match env.deadline_guard with
  | none =>
      (.ok (format_result env.attestation_guard
        { error := some "qwed-legal missing" } "verify_legal_deadline"), [])
  | some f =>
    match args.lookup "signing_date" with
    | none => (.error (keyErr "signing_date"), [])
    | some sd =>
      match args.lookup "term" with
      | none => (.error (keyErr "term"), [])
      | some tm =>
        match args.lookup "claimed_deadline" with
        | none => (.error (keyErr "claimed_deadline"), [])
        | some cd =>
          match f sd tm cd with
          | .error e => (.error e, ["deadline_guard"])
          | .ok (b, m) =>
              (.ok (format_result env.attestation_guard
                { verified := some b, message := some m } "verify_legal_deadline"), ["deadline_guard"])

/-- The verify_legal_citation branch, source lines 312-316: the guard
result exposes valid and issues, which the handler stores under the
verified and issues keys with no message. -/
def dispatch_citation (env : Env) (args : Args) : Except String String × List String :=
  match env.citation_guard with
  | none =>
      (.ok (format_result env.attestation_guard
        { error := some "qwed-legal missing" } "verify_legal_citation"), [])
  | some f =>
    match args.lookup "citation" with
    | none => (.error (keyErr "citation"), [])
    | some c =>
      match f c with
      | .error e => (.error e, ["citation_guard"])
      | .ok (b, iss) =>
          (.ok (format_result env.attestation_guard
            { verified := some b, issues := some iss } "verify_legal_citation"), ["citation_guard"])

/-- The verify_legal_liability branch, source lines 318-322. -/
def dispatch_liability (env : Env) (args : Args) : Except String String × List String :=
  match env.liability_guard with
  | none =>
      (.ok (format_result env.attestation_guard
        { error := some "qwed-legal missing" } "verify_legal_liability"), [])
  | some f =>
    match args.lookup "contract_value" with
    | none => (.error (keyErr "contract_value"), [])
    | some cv =>
      match args.lookup "cap_percentage" with
      | none => (.error (keyErr "cap_percentage"), [])
      | some cp =>
        match args.lookup "claimed_cap" with
        | none => (.error (keyErr "claimed_cap"), [])
        | some cc =>
          match f cv cp cc with
          | .error e => (.error e, ["liability_guard"])
          | .ok (b, m) =>
              (.ok (format_result env.attestation_guard
                { verified := some b, message := some m } "verify_legal_liability"), ["liability_guard"])

/-- The verify_legal_jurisdiction branch, source lines 324-332: forum is
read with dict.get and so may be absent without fault. -/
def dispatch_jurisdiction (env : Env) (args : Args) : Except String String × List String :=
  match env.jurisdiction_guard with
  | none =>
      (.ok (format_result env.attestation_guard
        { error := some "qwed-legal missing" } "verify_legal_jurisdiction"), [])
  | some f =>
    match args.lookup "parties_countries" with
    | none => (.error (keyErr "parties_countries"), [])
    | some pc =>
      match args.lookup "governing_law" with
      | none => (.error (keyErr "governing_law"), [])
      | some gl =>
        match f pc gl (args.lookup "forum") with
        | .error e => (.error e, ["jurisdiction_guard"])
        | .ok (b, m, cf) =>
            (.ok (format_result env.attestation_guard
              { verified := some b, message := some m, conflicts := some cf }
              "verify_legal_jurisdiction"), ["jurisdiction_guard"])

/-- The verify_legal_statute branch, source lines 334-343. -/
def dispatch_statute (env : Env) (args : Args) : Except String String × List String :=
  match env.statute_guard with
  | none =>
      (.ok (format_result env.attestation_guard
        { error := some "qwed-legal missing" } "verify_legal_statute"), [])
  | some f =>
    match args.lookup "claim_type" with
    | none => (.error (keyErr "claim_type"), [])
    | some ct =>
      match args.lookup "jurisdiction" with
      | none => (.error (keyErr "jurisdiction"), [])
      | some ju =>
        match args.lookup "incident_date" with
        | none => (.error (keyErr "incident_date"), [])
        | some idt =>
          match args.lookup "filing_date" with
          | none => (.error (keyErr "filing_date"), [])
          | some fd =>
            match f ct ju idt fd with
            | .error e => (.error e, ["statute_guard"])
            | .ok (b, m) =>
                (.ok (format_result env.attestation_guard
                  { verified := some b, message := some m } "verify_legal_statute"), ["statute_guard"])

/-- The body of call_tool inside its try block, source lines 236-354: the
name comparison chain, with the unknown-tool early return.  The Except
error carries the str() of a raised exception on its way to the outer
handler; the list logs the backend invocations performed. -/
def call_tool_except (env : Env) (name : String) (args : Args) : Except String String × List String :=
  if name = "verify_math" then dispatch_math env args
  else if name = "verify_logic" then dispatch_logic env args
  else if name = "verify_code" then dispatch_code env args
  else if name = "verify_sql" then dispatch_sql env args
  else if name = "verify_banking_compliance" then dispatch_banking env args
  else if name = "verify_iso_20022" then dispatch_iso env args
  else if name = "verify_commerce_transaction" then dispatch_commerce env args
  else if name = "verify_legal_deadline" then dispatch_deadline env args
  else if name = "verify_legal_citation" then dispatch_citation env args
  else if name = "verify_legal_liability" then dispatch_liability env args
  else if name = "verify_legal_jurisdiction" then dispatch_jurisdiction env args
  else if name = "verify_legal_statute" then dispatch_statute env args
  else (.ok ("Unknown tool: " ++ name), [])

/-- The outer except handler, source lines 356-361: a fault becomes a
single text response rendering the error. -/
def wrapResp : Except String String × List String → List String × List String
  | (.ok s, log) => ([s], log)
  | (.error e, log) => (["Verification error: " ++ e], log)

/-- call_tool, source lines 231-361: the full dispatch entry point.  The
first component is the list of TextContent texts returned to the caller,
the second the log of backend invocations. -/
def call_tool (env : Env) (name : String) (args : Args) : List String × List String :=
  wrapResp (call_tool_except env name args)

/-- The tool identifiers registered in the dispatch chain. -/
def registeredNames : List String :=
  ["verify_math", "verify_logic", "verify_code", "verify_sql",
   "verify_banking_compliance", "verify_iso_20022", "verify_commerce_transaction",
   "verify_legal_deadline", "verify_legal_citation", "verify_legal_liability",
   "verify_legal_jurisdiction", "verify_legal_statute"]

/-- A backend result with only a true verified flag, used as a stub for
black-box backends in concrete instances. -/
def stubRaw : RawResult := { verified := some true }

/-- A concrete signer that always produces the same token. -/
def cSigner : Signer := fun _ _ => .ok "SIGTOKEN"

/-- A concrete environment in which every capability is available. -/
def cEnv : Env :=
  { math_engine := fun _ _ _ => .ok stubRaw,
    logic_engine := fun _ _ => .ok stubRaw,
    code_guard := some (fun _ => .ok stubRaw),
    sql_guard := some (fun _ => .ok stubRaw),
    finance_guard := true,
    iso_guard := some (fun _ _ => .ok stubRaw),
    commerce_guard := some (fun _ => .ok (true, none)),
    deadline_guard := some (fun _ _ _ => .ok (true, "ok")),
    citation_guard := some (fun _ => .ok (true, [])),
    liability_guard := some (fun _ _ _ => .ok (true, "ok")),
    jurisdiction_guard := some (fun _ _ _ => .ok (true, "ok", [])),
    statute_guard := some (fun _ _ _ _ => .ok (true, "ok")),
    json_loads := fun v => .ok v,
    attestation_guard := some cSigner }

/-- An environment in which every optional guard failed to import, with
the always-present engines, json parser and signer left arbitrary. -/
def envNoGuards (me : PyVal → PyVal → PyVal → Except String RawResult)
    (le : PyVal → PyVal → Except String RawResult)
    (jl : PyVal → Except String PyVal) (att : Option Signer) : Env :=
  { math_engine := me, logic_engine := le,
    code_guard := none, sql_guard := none, finance_guard := false,
    iso_guard := none, commerce_guard := none,
    deadline_guard := none, citation_guard := none, liability_guard := none,
    jurisdiction_guard := none, statute_guard := none,
    json_loads := jl, attestation_guard := att }

/-- C1: dispatch is total: every call returns exactly one text response,
and any fault raised while accessing arguments or invoking a backend is
caught at the dispatch boundary and rendered into that single response. -/
theorem C1_dispatch_total (env : Env) (name : String) (args : Args) :
    (call_tool env name args).1.length = 1 ∧
    (∀ e log, call_tool_except env name args = (.error e, log) →
      call_tool env name args = (["Verification error: " ++ e], log)) := by
  constructor
  · rcases h : call_tool_except env name args with ⟨res, log⟩
    cases res <;> simp [call_tool, wrapResp, h]
  · intro e log h
    simp [call_tool, wrapResp, h]

/-- C1 witness: a concrete faulting call (missing argument under a fully
populated environment) yields the single rendered error response. -/
theorem C1_dispatch_total_witness :
    (call_tool cEnv "verify_math" []).1.length = 1 ∧
    call_tool cEnv "verify_math" [] = (["Verification error: " ++ keyErr "expression"], []) :=
  ⟨(C1_dispatch_total cEnv "verify_math" []).1,
   (C1_dispatch_total cEnv "verify_math" []).2 (keyErr "expression") [] rfl⟩

/-- The raw result refuting the priority rule: verified present and
false, valid present and true. -/
def c2raw : RawResult := { verified := some false, valid := some true }

/-- C2 counterexample: with verified present and false but valid present
and true, the implementation renders VERIFIED — the present verified
field does not alone decide the status, refuting the claimed priority
rule (spec_verified states that rule). -/
theorem C2_priority_counterexample :
    c2raw.verified = some false ∧ impl_verified c2raw = true ∧
    spec_verified c2raw = false ∧
    format_result none c2raw "tool" = okStatus ++ "\nResult: No details\n" :=
  ⟨rfl, rfl, rfl, rfl⟩

/-- C2 (corrected): the normalized verified flag is the disjunction of
the two raw fields: true exactly when verified is present and true or
valid is present and true; in particular it is false when neither field
is present, but a present and false verified field is overridden by a
true valid field rather than deciding alone. -/
theorem C2_verified_disjunction (r : RawResult) :
    impl_verified r = true ↔ (r.verified = some true ∨ r.valid = some true) := by
  rcases r with ⟨v, vl, _, _, _, _, _, _⟩
  rcases v with _ | b <;> rcases vl with _ | c <;> simp [impl_verified]

/-- C3 counterexample: an unknown tool yields the bare text, not the
standard rendering: the response does not start with the failed status
line, contains no FAILED marker, and no backend runs. -/
theorem C3_unknown_counterexample :
    call_tool cEnv "frobnicate" [] = (["Unknown tool: frobnicate"], []) ∧
    strStarts "Unknown tool: frobnicate" failStatus = false ∧
    strContains "Unknown tool: frobnicate" "FAILED" = false :=
  ⟨rfl, by decide, by decide⟩

/-- C3 (corrected): for every identifier outside the dispatch chain the
gateway returns the plain text naming the unknown tool and invokes no
backend; the reply is an early return that bypasses format_result, so it
carries no FAILED status line and no normalized result shape. -/
theorem C3_unknown_plain_text (env : Env) (name : String) (args : Args)
    (h : name ∉ registeredNames) :
    call_tool env name args = (["Unknown tool: " ++ name], []) := by
  simp only [registeredNames, List.mem_cons, List.not_mem_nil, or_false, not_or] at h
  obtain ⟨h1, h2, h3, h4, h5, h6, h7, h8, h9, h10, h11, h12⟩ := h
  simp [call_tool, call_tool_except, wrapResp, h1, h2, h3, h4, h5, h6, h7, h8, h9, h10, h11, h12]

/-- C3 witness: a concrete unregistered identifier. -/
theorem C3_unknown_plain_text_witness :
    call_tool cEnv "mystery_tool" [] = (["Unknown tool: mystery_tool"], []) :=
  C3_unknown_plain_text cEnv "mystery_tool" [] (by decide)

/-- C4 counterexample: verify_code with its declared required field
language absent still invokes the code guard — the missing required
field does not short-circuit dispatch before the backend runs. -/
theorem C4_missing_field_counterexample :
    ([("code", PyVal.str "x = 1")].lookup "language") = (none : Option PyVal) ∧
    (call_tool cEnv "verify_code" [("code", PyVal.str "x = 1")]).2 = ["code_guard"] :=
  ⟨rfl, rfl⟩

/-- C4 (corrected): dispatch performs no schema validation.  A missing
required field that the handler does read surfaces as a KeyError caught
at the outer boundary, producing the bare Verification error text naming
the field, with no backend invocation; for verify_iso_20022 and
verify_commerce_transaction the KeyError is caught by the inner handler
and rendered as a formatted failed result naming the field.  A required
field the handler never reads (language of verify_code) does not
short-circuit at all. -/
theorem C4_missing_field_keyerror (env : Env) :
    call_tool env "verify_math" [] = (["Verification error: " ++ keyErr "expression"], []) ∧
    call_tool env "verify_logic" [] = (["Verification error: " ++ keyErr "premises"], []) ∧
    (∀ g, env.code_guard = some g →
      call_tool env "verify_code" [] = (["Verification error: " ++ keyErr "code"], [])) ∧
    (∀ g, env.sql_guard = some g →
      call_tool env "verify_sql" [] = (["Verification error: " ++ keyErr "query"], [])) ∧
    (env.finance_guard = true →
      call_tool env "verify_banking_compliance" [] = (["Verification error: " ++ keyErr "scenario"], [])) ∧
    (∀ g, env.iso_guard = some g →
      call_tool env "verify_iso_20022" [] =
        ([format_result env.attestation_guard
            { verified := some false, error := some (keyErr "message_json") } "verify_iso_20022"], [])) ∧
    (∀ g, env.commerce_guard = some g →
      call_tool env "verify_commerce_transaction" [] =
        ([format_result env.attestation_guard
            { verified := some false, error := some (keyErr "cart_json") } "verify_commerce_transaction"], [])) ∧
    (∀ g, env.deadline_guard = some g →
      call_tool env "verify_legal_deadline" [] = (["Verification error: " ++ keyErr "signing_date"], [])) ∧
    (∀ g, env.citation_guard = some g →
      call_tool env "verify_legal_citation" [] = (["Verification error: " ++ keyErr "citation"], [])) ∧
    (∀ g, env.liability_guard = some g →
      call_tool env "verify_legal_liability" [] = (["Verification error: " ++ keyErr "contract_value"], [])) ∧
    (∀ g, env.jurisdiction_guard = some g →
      call_tool env "verify_legal_jurisdiction" [] = (["Verification error: " ++ keyErr "parties_countries"], [])) ∧
    (∀ g, env.statute_guard = some g →
      call_tool env "verify_legal_statute" [] = (["Verification error: " ++ keyErr "claim_type"], [])) := by
  refine ⟨rfl, rfl, ?_, ?_, ?_, ?_, ?_, ?_, ?_, ?_, ?_, ?_⟩
  · intro g h
    simp [call_tool, call_tool_except, wrapResp, dispatch_code, h]
  · intro g h
    simp [call_tool, call_tool_except, wrapResp, dispatch_sql, h]
  · intro h
    simp [call_tool, call_tool_except, wrapResp, dispatch_banking, h]
  · intro g h
    simp [call_tool, call_tool_except, wrapResp, dispatch_iso, h]
  · intro g h
    simp [call_tool, call_tool_except, wrapResp, dispatch_commerce, h]
  · intro g h
    simp [call_tool, call_tool_except, wrapResp, dispatch_deadline, h]
  · intro g h
    simp [call_tool, call_tool_except, wrapResp, dispatch_citation, h]
  · intro g h
    simp [call_tool, call_tool_except, wrapResp, dispatch_liability, h]
  · intro g h
    simp [call_tool, call_tool_except, wrapResp, dispatch_jurisdiction, h]
  · intro g h
    simp [call_tool, call_tool_except, wrapResp, dispatch_statute, h]

/-- C4 witness: under the fully populated environment, verify_code with
an empty argument map yields the KeyError text for code and invokes no
backend. -/
theorem C4_missing_field_keyerror_witness :
    call_tool cEnv "verify_code" [] = (["Verification error: " ++ keyErr "code"], []) :=
  (C4_missing_field_keyerror cEnv).2.2.1 (fun _ => .ok stubRaw) rfl

/-- C5: when the guards are unavailable, every call to a tool depending
on one returns the formatted failed result whose message names the
missing capability, with no backend invocation, for every argument map;
each of the short-circuit raw results normalizes to verified = false. -/
theorem C5_missing_capability (me : PyVal → PyVal → PyVal → Except String RawResult)
    (le : PyVal → PyVal → Except String RawResult)
    (jl : PyVal → Except String PyVal) (att : Option Signer) (args : Args) :
    call_tool (envNoGuards me le jl att) "verify_code" args =
      ([format_result att { verified := some false, error := some "CodeGuard not installed" } "verify_code"], []) ∧
    call_tool (envNoGuards me le jl att) "verify_sql" args =
      ([format_result att { verified := some false, error := some "SQLGuard not installed" } "verify_sql"], []) ∧
    call_tool (envNoGuards me le jl att) "verify_banking_compliance" args =
      ([format_result att { error := some "qwed-finance missing" } "verify_banking_compliance"], []) ∧
    call_tool (envNoGuards me le jl att) "verify_iso_20022" args =
      ([format_result att { error := some "qwed-finance missing" } "verify_iso_20022"], []) ∧
    call_tool (envNoGuards me le jl att) "verify_commerce_transaction" args =
      ([format_result att { error := some "qwed-ucp missing" } "verify_commerce_transaction"], []) ∧
    call_tool (envNoGuards me le jl att) "verify_legal_deadline" args =
      ([format_result att { error := some "qwed-legal missing" } "verify_legal_deadline"], []) ∧
    call_tool (envNoGuards me le jl att) "verify_legal_citation" args =
      ([format_result att { error := some "qwed-legal missing" } "verify_legal_citation"], []) ∧
    call_tool (envNoGuards me le jl att) "verify_legal_liability" args =
      ([format_result att { error := some "qwed-legal missing" } "verify_legal_liability"], []) ∧
    call_tool (envNoGuards me le jl att) "verify_legal_jurisdiction" args =
      ([format_result att { error := some "qwed-legal missing" } "verify_legal_jurisdiction"], []) ∧
    call_tool (envNoGuards me le jl att) "verify_legal_statute" args =
      ([format_result att { error := some "qwed-legal missing" } "verify_legal_statute"], []) ∧
    impl_verified { verified := some false, error := some "CodeGuard not installed" } = false ∧
    impl_verified { verified := some false, error := some "SQLGuard not installed" } = false ∧
    impl_verified { error := some "qwed-finance missing" } = false ∧
    impl_verified { error := some "qwed-ucp missing" } = false ∧
    impl_verified { error := some "qwed-legal missing" } = false :=
  ⟨rfl, rfl, rfl, rfl, rfl, rfl, rfl, rfl, rfl, rfl, rfl, rfl, rfl, rfl, rfl⟩

/-- C6 counterexample: with the signer available, the unknown-tool reply
carries no attestation block — it is not the case that every returned
response includes a token. -/
theorem C6_attestation_counterexample :
    cEnv.attestation_guard = some cSigner ∧
    call_tool cEnv "nope" [] = (["Unknown tool: nope"], []) ∧
    strContains "Unknown tool: nope" attHeader = false ∧
    strContains "Unknown tool: nope" "SIGTOKEN" = false :=
  ⟨rfl, rfl, by decide, by decide⟩

/-- C6 (corrected): responses rendered through format_result behave as
claimed: with the signer available a successful signing appends the
token block after the full verdict, a signing fault is caught and
appended as a short inline note with the verdict still present, and an
absent signer appends nothing; but replies that bypass format_result
(unknown tool, outer dispatch faults) never carry a token even when the
signer is available. -/
theorem C6_attestation_formatting (s : Signer) (r : RawResult) (t : String) :
    (∀ tok, s (input_summary t r) r = .ok tok →
      format_result (some s) r t =
        format_body r ++ "\n\n" ++ attHeader ++ "\n`" ++ tok ++ "`") ∧
    (∀ e, s (input_summary t r) r = .error e →
      format_result (some s) r t = format_body r ++ "\n\n(Signing failed: " ++ e ++ ")") ∧
    format_result none r t = format_body r := by
  refine ⟨?_, ?_, ?_⟩
  · intro tok h
    simp [format_result, signature_block, h, String.append_assoc]
  · intro e h
    simp [format_result, signature_block, h, String.append_assoc]
  · simp [format_result, signature_block, String.append_empty]

/-- C6 witness: the concrete signer succeeds and the token block is
appended after the verdict. -/
theorem C6_attestation_formatting_witness :
    format_result (some cSigner) stubRaw "verify_math" =
      format_body stubRaw ++ "\n\n" ++ attHeader ++ "\n`" ++ "SIGTOKEN" ++ "`" :=
  (C6_attestation_formatting cSigner stubRaw "verify_math").1 "SIGTOKEN" rfl

/-- First raw result for the summary counterexample. -/
def c7a : RawResult := { verified := some true, message := some "alpha" }

/-- Second raw result for the summary counterexample. -/
def c7b : RawResult := { verified := some true, message := some "beta" }

/-- C7 counterexample: two signed results with the same tool and the same
verified flag but different messages produce the same signed summary —
the summary does not determine the message component of the triple. -/
theorem C7_summary_counterexample :
    input_summary "verify_math" c7a = input_summary "verify_math" c7b ∧
    c7a.message ≠ c7b.message :=
  ⟨rfl, by decide⟩

/-- C7 (corrected): the signed summary string is built from the tool
identifier and the raw verified field alone; the result message is not
bound into it (the raw result dict is passed to the signer only as a
separate argument). -/
theorem C7_summary_depends_on_verified (t : String) (r q : RawResult)
    (h : r.verified = q.verified) :
    input_summary t r = input_summary t q := by
  simp [input_summary, h]

/-- C7 witness: two raw results agreeing only on the verified field give
the same summary. -/
theorem C7_summary_depends_on_verified_witness :
    input_summary "verify_sql" { verified := some false, valid := some true } =
      input_summary "verify_sql" { verified := some false } :=
  C7_summary_depends_on_verified "verify_sql" _ _ rfl

/-- Helper: the banking branch reads only the scenario and llm_output
entries of the argument map. -/
theorem dispatch_banking_lookup (env : Env) (a1 a2 : Args)
    (h1 : a1.lookup "scenario" = a2.lookup "scenario")
    (h2 : a1.lookup "llm_output" = a2.lookup "llm_output") :
    dispatch_banking env a1 = dispatch_banking env a2 := by
  unfold dispatch_banking
  rw [h1, h2]

/-- C8: dispatch is deterministic: the response is a function of the
environment (capability table), tool name and argument map, so equal
requests give equal responses; and the banking logic trap heuristic
depends only on the scenario and llm_output arguments. -/
theorem C8_dispatch_deterministic (env : Env) :
    (∀ (name : String) (a1 a2 : Args), a1 = a2 →
      call_tool env name a1 = call_tool env name a2) ∧
    (∀ a1 a2 : Args, a1.lookup "scenario" = a2.lookup "scenario" →
      a1.lookup "llm_output" = a2.lookup "llm_output" →
      call_tool env "verify_banking_compliance" a1 =
        call_tool env "verify_banking_compliance" a2) := by
  constructor
  · intro name a1 a2 h
    rw [h]
  · intro a1 a2 h1 h2
    show wrapResp (dispatch_banking env a1) = wrapResp (dispatch_banking env a2)
    rw [dispatch_banking_lookup env a1 a2 h1 h2]

/-- C8 witness: two maps listing the same entries in a different order
give identical banking responses. -/
theorem C8_dispatch_deterministic_witness :
    call_tool cEnv "verify_banking_compliance"
        [("scenario", PyVal.str "S"), ("llm_output", PyVal.str "O")] =
      call_tool cEnv "verify_banking_compliance"
        [("llm_output", PyVal.str "O"), ("scenario", PyVal.str "S")] :=
  (C8_dispatch_deterministic cEnv).2 _ _ rfl rfl

/-- Helper: the sql branch reads only the query entry of the argument
map. -/
theorem dispatch_sql_lookup (env : Env) (a1 a2 : Args)
    (h : a1.lookup "query" = a2.lookup "query") :
    dispatch_sql env a1 = dispatch_sql env a2 := by
  unfold dispatch_sql
  rw [h]

/-- C9: allowed_tables has no effect on verify_sql: two calls whose
argument maps agree on the query entry produce identical responses,
whatever allowed_tables holds in either map, because only the query field
is passed to the SQL guard. -/
theorem C9_sql_ignores_allowed_tables (env : Env) (a1 a2 : Args)
    (h : a1.lookup "query" = a2.lookup "query") :
    call_tool env "verify_sql" a1 = call_tool env "verify_sql" a2 := by
  show wrapResp (dispatch_sql env a1) = wrapResp (dispatch_sql env a2)
  rw [dispatch_sql_lookup env a1 a2 h]

/-- C9 witness: adding an allowed_tables entry leaves the response
unchanged. -/
theorem C9_sql_ignores_allowed_tables_witness :
    call_tool cEnv "verify_sql"
        [("query", PyVal.str "SELECT 1"), ("allowed_tables", PyVal.list ["users"])] =
      call_tool cEnv "verify_sql" [("query", PyVal.str "SELECT 1")] :=
  C9_sql_ignores_allowed_tables cEnv _ _ rfl

/-- C10: with the finance guard available, verify_banking_compliance is
decided entirely inside the gateway: no backend is invoked, the trap
result (verified false with the fixed trap message) is produced exactly
when the scenario contains Senior Citizen and the llm output contains
0.5, and otherwise the output is echoed back as verified. -/
theorem C10_banking_logic_trap (env : Env) (args : Args) (sc out : String)
    (hf : env.finance_guard = true)
    (h1 : args.lookup "scenario" = some (PyVal.str sc))
    (h2 : args.lookup "llm_output" = some (PyVal.str out)) :
    call_tool env "verify_banking_compliance" args =
      ([format_result env.attestation_guard
          (if strContains sc "Senior Citizen" && strContains out "0.5"
            then trapResult else bankingOk out)
          "verify_banking_compliance"], []) ∧
    trapResult.verified = some false ∧
    trapResult.message = some "Logic Trap Detected: Senior Citizen Premium" ∧
    (bankingOk out).verified = some true ∧
    (bankingOk out).message = some ("Verified: " ++ out) := by
  refine ⟨?_, rfl, rfl, rfl, rfl⟩
  cases hb1 : strContains sc "Senior Citizen" <;>
    cases hb2 : strContains out "0.5" <;>
      simp [call_tool, call_tool_except, wrapResp, dispatch_banking, hf, h1, h2,
        pyContains, hb1, hb2, pyStr]

/-- C10 witness: a concrete trapped request under the fully populated
environment. -/
theorem C10_banking_logic_trap_witness :
    call_tool cEnv "verify_banking_compliance"
        [("scenario", PyVal.str "Senior Citizen account"), ("llm_output", PyVal.str "rate 0.5 applies")] =
      ([format_result cEnv.attestation_guard
          (if strContains "Senior Citizen account" "Senior Citizen" && strContains "rate 0.5 applies" "0.5"
            then trapResult else bankingOk "rate 0.5 applies")
          "verify_banking_compliance"], []) ∧
    trapResult.verified = some false ∧
    trapResult.message = some "Logic Trap Detected: Senior Citizen Premium" ∧
    (bankingOk "rate 0.5 applies").verified = some true ∧
    (bankingOk "rate 0.5 applies").message = some ("Verified: " ++ "rate 0.5 applies") :=
  C10_banking_logic_trap cEnv _ "Senior Citizen account" "rate 0.5 applies" rfl rfl rfl
